import Mathlib

/-!
Shallow embedding of the client-side cache / event-bus / aggregation layer of
the risk-analytics-dashboard repository (`src/services/riskAnalyticsAPI.ts`,
`src/hooks/useDashboardData.ts`, `src/services/apiConfig.ts`).

Time is modelled as a natural number of milliseconds (`Date.now()`);
JS numbers that carry no arithmetic meaning for the properties are embedded
as `Rat` (decimal literals in the data) or `String` (ISO timestamps).
Asynchronous calls are embedded by passing their settled outcome
(`Except String α`) explicitly; rejection of a promise is `Except.error`.
-/

namespace RiskDashboard

/-! ## Expiring cache (`RiskAnalyticsAPI.setCache` / `getCache`)

The TS cache is `Map<string, { data: any; timestamp: number; ttl: number }>`,
where `ttl` is the *absolute* expiry instant `Date.now() + ttlSeconds * 1000`.
We embed the map as a function `String → Option (CacheEntry α)` (`Map.set`
overwrites, `Map.delete` removes). -/

/-- One cache slot: `{ data, timestamp, ttl }` with `ttl` the absolute expiry
instant in ms, as stored by `setCache`. -/
structure CacheEntry (α : Type) where
  data : α
  timestamp : Nat
  ttl : Nat
  deriving DecidableEq

/-- The cache map `Map<string, CacheEntry>`. -/
def Cache (α : Type) : Type := String → Option (CacheEntry α)

/-- The empty cache. -/
def Cache.empty (α : Type) : Cache α := fun _ => none

/-- TS `setCache(key, data, ttlSeconds)`: unconditionally overwrites the slot for
`key` with `{ data, timestamp: now, ttl: now + ttlSeconds*1000 }`
(README.md lines 691-702; the deferred `setTimeout` cleanup only deletes
already-expired entries, so it does not affect the map's logical contents as
observed through `getCache`). -/
def setCache {α : Type} (c : Cache α) (now : Nat) (key : String) (data : α)
    (ttlSeconds : Nat) : Cache α :=
  fun k => if k = key then some ⟨data, now, now + ttlSeconds * 1000⟩ else c k

/-- TS `getCache(key)`: returns the stored value only if `Date.now() < cached.ttl`;
if the entry exists but is expired it is deleted and `null` is returned
(README.md lines 704-713). The result is the returned value paired with the
cache after the call. -/
def getCache {α : Type} (c : Cache α) (now : Nat) (key : String) :
    Option α × Cache α :=
  match c key with
  | some cached =>
      if now < cached.ttl then (some cached.data, c)
      else (none, fun k => if k = key then none else c k)
  | none => (none, c)

/-! ## Bounded alert list (`useDashboardData.ts`, `risk_alerts` subscription)

On each `risk_alerts` event the hook does
`riskAlerts: [newAlert, ...prevData.riskAlerts.slice(0, 9)]`
(useDashboardData.ts line 107). -/

/-- One `risk_alerts` event's list update: prepend the new alert and keep at
most the first 9 previous ones (`[newAlert, ...prev.slice(0, 9)]`). -/
def pushAlert {α : Type} (newAlert : α) (prev : List α) : List α :=
  newAlert :: prev.take 9

/-- The successive alert-list states produced by a burst of `risk_alerts`
events: element 0 is the initial list, element i+1 the list after the
(i+1)-th event. -/
def alertStates {α : Type} (init : List α) (burst : List α) : List (List α) :=
  burst.scanl (fun l a => pushAlert a l) init

/-! ## Topic event bus (`emitKafkaEvent` / `subscribeToKafkaTopic`)

`eventListeners : Map<string, Function[]>`; `subscribeToKafkaTopic` pushes the
callback onto the topic's array; `emitKafkaEvent` does
`listeners.forEach(listener => listener(message))` on the topic's array
(README.md lines 731-750). We embed a handler as a `Nat` identifier whose
behaviour when invoked is given by an environment `behave`: it may register
further handlers on the same topic (a `subscribeToKafkaTopic` call from inside
the handler, i.e. a push onto the same live array) and may end by throwing.
`Array.prototype.forEach` fixes the range of visited indices at the initial
length, so elements pushed during the loop are not visited, and an uncaught
exception from the callback aborts the loop and propagates out of `forEach`. -/

/-- What one handler does when invoked: the handlers it registers on the same
topic during its run, and whether it ends by throwing. -/
structure HandlerAct where
  registers : List Nat
  throws : Bool
  deriving DecidableEq

/-- Outcome of one `emitKafkaEvent` on a topic: the handlers invoked in order,
the handlers pushed onto the topic's array during delivery (in push order),
and whether an exception escaped the `forEach`. -/
structure EmitResult where
  invoked : List Nat
  appended : List Nat
  raised : Bool
  deriving DecidableEq

/-- The `forEach` loop over the snapshot of indices fixed at call time:
invokes each pre-registered handler in order; a handler's registrations are
pushed past the visited range; a throwing handler aborts the loop. -/
def emitRun (behave : Nat → HandlerAct) : List Nat → EmitResult
  | [] => ⟨[], [], false⟩
  | h :: rest =>
      let a := behave h
      if a.throws then ⟨[h], a.registers, true⟩
      else
        let r := emitRun behave rest
        ⟨h :: r.invoked, a.registers ++ r.appended, r.raised⟩

/-- TS `emitKafkaEvent(topic, data)` restricted to one topic's listener array
`listeners`: delivery trace plus the topic's array after the publish
(`listeners` with all registrations made during delivery pushed at the end). -/
def emitKafkaEvent (behave : Nat → HandlerAct) (listeners : List Nat) :
    EmitResult × List Nat :=
  let r := emitRun behave listeners
  (r, listeners ++ r.appended)

/-! ## Subscription handles (spec-modelled)

`subscribeToKafkaTopic` in `riskAnalyticsAPI.ts` returns `void` and the class
has no unsubscribe method at all; `useDashboardData.ts` stores the (undefined)
return values as `unsubscribeMarket` / `unsubscribeAlerts` and its cleanup
comments that "In a real implementation, you'd unsubscribe from Kafka topics
here". The detach capability is therefore modelled from the spec below. -/

/-- Bus registration table with handle allocation: each subscription is a
`(handle, topic, handler)` row, handles allocated by a counter. -/
structure Bus where
  nextHandle : Nat
  subs : List (Nat × String × Nat)
  deriving DecidableEq

/-- Modelled from the spec: `subscribe(topic, handler) → subscriptionHandle`
(§4.2) — the handle-returning subscribe is absent from src
(`subscribeToKafkaTopic` returns `void`); appends the registration and returns
a fresh handle. -/
def Bus.subscribe (b : Bus) (topic : String) (handler : Nat) : Nat × Bus :=
  (b.nextHandle,
   ⟨b.nextHandle + 1, b.subs ++ [(b.nextHandle, topic, handler)]⟩)

/-- Modelled from the spec: `unsubscribe(handle)` removes the registration with
that handle; "safe to call multiple times (idempotent no-op after the first)"
(§4.2) — no unsubscribe exists in src, only its intended call site in
`useDashboardData.ts`'s cleanup. -/
def Bus.unsubscribe (b : Bus) (handle : Nat) : Bus :=
  ⟨b.nextHandle, b.subs.filter (fun s => s.1 ≠ handle)⟩

/-! ## Data model of the API layer

Record shapes from `riskAnalyticsAPI.ts` and the chart component; JS numbers
are embedded as `Rat`, ISO timestamps as `String`. `marketData.json` itself is
not in the repository, so the base data is a parameter (`MarketData`); the
concrete mock records used by witnesses below are the ones in the repository's
chart component (`mockData`). -/

/-- Interface `RiskMetrics` of `riskAnalyticsAPI.ts`. -/
structure RiskMetrics where
  totalExposure : Rat
  valueAtRisk : Rat
  sharpeRatio : Rat
  maxDrawdown : Rat
  betaToMarket : Rat
  portfolioValue : Rat
  timestamp : String
  marketStatus : String
  deriving DecidableEq

/-- One risk-alert record (`marketData.riskAlerts` / interface `RiskAlert`):
`status` is one of ACTIVE, RESOLVED, MONITORING. -/
structure RiskAlert where
  time : String
  symbol : String
  alert : String
  severity : String
  status : String
  deriving DecidableEq

/-- One VaR-history point (interface `VarHistoryData`). -/
structure VarPoint where
  time : String
  var : Rat
  expected : Rat
  deriving DecidableEq

/-- One sector-exposure row (interface `SectorExposureData`). -/
structure SectorRow where
  sector : String
  exposure : Rat
  limit : Rat
  color : String
  deriving DecidableEq

/-- One portfolio-breakdown row (interface `PortfolioAsset`). -/
structure PortfolioRow where
  asset : String
  value : Rat
  percentage : Rat
  deriving DecidableEq

/-- One `pingService` result row of `healthCheck`. -/
structure ServiceCheck where
  service : String
  status : String
  responseTime : Rat
  endpoint : String
  deriving DecidableEq

/-- Shape of the `healthCheck()` result (the spread of the unknown
`marketData.systemHealth` base record is elided — no claim inspects it). -/
structure SystemHealth where
  lastChecked : String
  services : List ServiceCheck
  deriving DecidableEq

/-- The parts of the missing `marketData.json` consumed by the code paths
under verification. -/
structure MarketData where
  riskAlerts : List RiskAlert
  portfolioBreakdown : List PortfolioRow
  deriving DecidableEq

/-- Shape of a GraphQL `data` object: the branch taken populates one field,
the other is absent (`none`). -/
structure GraphQLData where
  varHistory : Option (List VarPoint)
  sectorExposure : Option (List SectorRow)
  deriving DecidableEq

/-- Resolution value of `executeGraphQLQuery`: `{ data: … }` where `data` may
be `null` (the unrecognized-query branch returns `{ data: null }`). -/
structure GraphQLResult where
  data : Option GraphQLData
  deriving DecidableEq

/-- Body of an `invokeLambdaFunction` resolution: a JS object whose fields
depend on the function invoked; absent fields are `none`. -/
structure LambdaBody where
  calculatedAt : Option String
  riskScore : Option Rat
  recommendation : Option String
  analysis : Option (List PortfolioRow)
  optimizationSuggestions : Option (List String)
  alerts : Option (List RiskAlert)
  processedAt : Option String
  deriving DecidableEq

/-- Resolution value of `invokeLambdaFunction`: `{ statusCode, body }`. -/
structure LambdaResult where
  statusCode : Nat
  body : Option LambdaBody
  deriving DecidableEq

/-- TS `invokeLambdaFunction(functionName, payload)` (README.md lines
819-857): a `switch` on `functionName` with three 200-cases and a throwing
default. The simulated latency is dropped; `new Date().toISOString()` and the
`Math.random() * 100` draw are passed in as `nowIso` / `riskScore`; the unused
`functionUrl` lookup is omitted; the `payload` argument is never read. -/
def invokeLambdaFunction {P : Type} (md : MarketData) (nowIso : String)
    (riskScore : Rat) (functionName : String) (payload : P) :
    Except String LambdaResult :=
  if functionName = "RISK_CALCULATION" then
    .ok ⟨200, some ⟨some nowIso, some riskScore, some "HOLD",
      none, none, none, none⟩⟩
  else if functionName = "PORTFOLIO_ANALYSIS" then
    .ok ⟨200, some ⟨none, none, none, some md.portfolioBreakdown,
      some ["Rebalance technology exposure",
            "Increase fixed income allocation"], none, none⟩⟩
  else if functionName = "ALERT_PROCESSOR" then
    .ok ⟨200, some ⟨none, none, none, none, none,
      some (md.riskAlerts.filter (fun a => a.status == "ACTIVE")),
      some nowIso⟩⟩
  else
    .error ("Unknown Lambda function: " ++ functionName)

/-- The `DashboardData` interface of `useDashboardData.ts` (the assembled
snapshot returned by `getAllDashboardData`). -/
structure DashboardData where
  metrics : RiskMetrics
  varHistory : List VarPoint
  sectorExposure : List SectorRow
  riskAlerts : List RiskAlert
  portfolioBreakdown : List PortfolioRow
  systemHealth : SystemHealth
  deriving DecidableEq

/-- The six concurrently issued upstream calls of `getAllDashboardData`, each
represented by its settled outcome (`Except.error` = that promise rejected). -/
structure UpstreamResults where
  metrics : Except String RiskMetrics
  varData : Except String GraphQLResult
  sectorData : Except String GraphQLResult
  alerts : Except String LambdaResult
  portfolio : Except String LambdaResult
  health : Except String SystemHealth

/-- TS `getAllDashboardData` (README.md lines 914-958): a `Promise.all` join
over the six calls — it rejects as soon as any member rejects, and the `catch`
rethrows — followed by assembly with the defensive defaults
`varData.data?.varHistory || []`, `sectorData.data?.sectorExposure || []`,
`alerts.body?.alerts || []`, `portfolio.body?.analysis || []`. -/
def getAllDashboardData (u : UpstreamResults) :
    Except String DashboardData :=
  u.metrics.bind fun metrics =>
  u.varData.bind fun varData =>
  u.sectorData.bind fun sectorData =>
  u.alerts.bind fun alerts =>
  u.portfolio.bind fun portfolio =>
  u.health.bind fun health =>
  Except.ok
    { metrics := metrics
      varHistory := (varData.data.bind (fun d => d.varHistory)).getD []
      sectorExposure := (sectorData.data.bind (fun d => d.sectorExposure)).getD []
      riskAlerts := (alerts.body.bind (fun b => b.alerts)).getD []
      portfolioBreakdown := (portfolio.body.bind (fun b => b.analysis)).getD []
      systemHealth := health }

/-- The `useDashboardData` hook's state cells. -/
structure HookState where
  data : Option DashboardData
  loading : Bool
  error : Option String
  lastUpdated : Option Nat
  isRealTimeConnected : Bool
  deriving DecidableEq

/-- The hook's state on first mount: `data = null`, `loading = true`. -/
def HookState.initial : HookState := ⟨none, true, none, none, false⟩

/-- TS `loadData` (useDashboardData.ts lines 30-49) applied to the settled
outcome of `getAllDashboardData`: on success the snapshot replaces `data`
(`setError(null)` ran first, so `error` ends `null`); on rejection the catch
surfaces the message and `data` / `lastUpdated` are not written; `finally`
clears `loading` either way. -/
def loadData (s : HookState) (result : Except String DashboardData)
    (now : Nat) : HookState :=
  match result with
  | .ok d =>
      { data := some d, loading := false, error := none,
        lastUpdated := some now, isRealTimeConnected := true }
  | .error e =>
      { s with error := some e, isRealTimeConnected := false,
               loading := false }

/-- One fast-loop iteration (useDashboardData.ts lines 130-144) applied to the
settled outcome of `fetchRealTimeMetrics`: on success, patch `metrics` only
(the `prevData` null-guard keeps `null` data `null`) and stamp `lastUpdated`;
on rejection the catch only warns — nothing is written. -/
def metricsTick (data : Option DashboardData) (lastUpdated : Option Nat)
    (result : Except String RiskMetrics) (now : Nat) :
    Option DashboardData × Option Nat :=
  match result with
  | .ok m => (data.map (fun d => { d with metrics := m }), some now)
  | .error _ => (data, lastUpdated)

/-! ## Concrete records for witnesses (the chart component's `mockData`). -/

/-- Mock metrics record (chart component `mockData.metrics`; timestamp and
market status filled with fixed strings). -/
def mockMetrics : RiskMetrics :=
  ⟨125800000, 2410000, 1.87, 4.2, 0.95, 50200000,
   "2025-01-01T00:00:00.000Z", "OPEN"⟩

/-- Mock ACTIVE alert (chart component `mockData.riskAlerts[0]`). -/
def tslaAlert : RiskAlert :=
  ⟨"13:45:23", "TSLA", "Position Limit Breach", "HIGH", "ACTIVE"⟩

/-- Mock market data: the chart component's `mockData.riskAlerts` (one ACTIVE,
one RESOLVED, one MONITORING, one ACTIVE) and `mockData.portfolioBreakdown`. -/
def mockMarketData : MarketData :=
  { riskAlerts :=
      [tslaAlert,
       ⟨"13:42:18", "NVDA", "Volatility Spike", "MEDIUM", "RESOLVED"⟩,
       ⟨"13:38:45", "AMZN", "Correlation Alert", "LOW", "MONITORING"⟩,
       ⟨"13:35:12", "GOOGL", "Liquidity Warning", "MEDIUM", "ACTIVE"⟩],
    portfolioBreakdown :=
      [⟨"Equities", 35200000, 70.1⟩, ⟨"Fixed Income", 8500000, 16.9⟩,
       ⟨"Derivatives", 4200000, 8.4⟩, ⟨"Cash", 2300000, 4.6⟩] }

/-- Mock health record for witnesses. -/
def mockHealth : SystemHealth := ⟨"2025-01-01T00:00:00.000Z", []⟩

end RiskDashboard

namespace RiskDashboard

/-- Helper for C7: once the alert list is within the cap, every later state of
the burst is too. -/
theorem alertStates_bounded {α : Type} (burst : List α) (init : List α)
    (h : init.length ≤ 10) :
    ∀ s ∈ alertStates init burst, s.length ≤ 10 := by
  induction burst generalizing init with
  | nil =>
      intro s hs
      have hse : s = init := by simpa [alertStates] using hs
      rw [hse]; exact h
  | cons a bs ih =>
      intro s hs
      have hs' : s = init ∨ s ∈ alertStates (pushAlert a init) bs := by
        simpa [alertStates, List.scanl] using hs
      rcases hs' with h1 | h2
      · rw [h1]; exact h
      · have hstep : (pushAlert a init).length ≤ 10 := by
          simp only [pushAlert, List.length_cons, List.length_take]
          omega
        exact ih (pushAlert a init) hstep s h2

/-- C7: for every initial alert list and every finite burst of live alert
events, after processing each event (prepend newest, keep the first 9 older
ones) the alert list has length at most 10. -/
theorem alert_list_capped_at_ten {α : Type} (init : List α) (burst : List α) :
    ∀ s ∈ (alertStates init burst).drop 1, s.length ≤ 10 := by
  cases burst with
  | nil => intro s hs; simp [alertStates, List.scanl] at hs
  | cons a bs =>
      intro s hs
      simp only [alertStates, List.scanl, List.drop_one, List.tail_cons] at hs
      have hstep : (pushAlert a init).length ≤ 10 := by
        simp only [pushAlert, List.length_cons, List.length_take]
        omega
      exact alertStates_bounded bs (pushAlert a init) hstep s hs

/-- Witness for C7: in a burst of 12 events on an initially 11-long list, the
state after the first event (a member of the post-event states) has length at
most 10. -/
theorem alert_list_capped_at_ten_witness :
    (0 :: (List.range 11).take 9).length ≤ 10 :=
  alert_list_capped_at_ten (List.range 11) (List.range 12)
    (0 :: (List.range 11).take 9) (by decide)

/-- C1: for every key, value and TTL `t > 0`, a `getCache` immediately after
`setCache(key, v, t)` returns `v`, and a `getCache` performed at any instant at
least `t` seconds later returns `null` with the expired entry deleted from the
cache by that call. -/
theorem cache_store_fetch_ttl {α : Type} (c : Cache α) (now now' : Nat)
    (key : String) (v : α) (t : Nat) (ht : 0 < t)
    (hlate : now + t * 1000 ≤ now') :
    (getCache (setCache c now key v t) now key).1 = some v ∧
    (getCache (setCache c now key v t) now' key).1 = none ∧
    (getCache (setCache c now key v t) now' key).2 key = none := by
  have hexp : ¬ now' < now + t * 1000 := by omega
  refine ⟨?_, ?_, ?_⟩
  · have hfresh : now < now + t * 1000 := by omega
    simp [getCache, setCache, hfresh]
  · simp [getCache, setCache, hexp]
  · simp [getCache, setCache, hexp]

/-- Helper for C2: when no pre-registered handler throws, the `forEach` trace
invokes exactly the snapshot, in order, and no exception escapes. -/
theorem emitRun_no_throw (behave : Nat → HandlerAct) (listeners : List Nat)
    (hok : ∀ h ∈ listeners, (behave h).throws = false) :
    (emitRun behave listeners).invoked = listeners ∧
    (emitRun behave listeners).raised = false := by
  induction listeners with
  | nil => simp [emitRun]
  | cons h rest ih =>
      have hh : (behave h).throws = false := hok h (List.mem_cons_self h rest)
      have hrest := ih (fun g hg => hok g (List.mem_cons_of_mem h hg))
      simp [emitRun, hh, hrest.1, hrest.2]

/-- C2: when no registered handler throws, `emitKafkaEvent` invokes exactly
the handlers registered for the topic at the moment of publish, once each, in
registration order; handlers registered during delivery are only pushed past
the visited snapshot (the final array is the snapshot followed by the new
registrations), so they are not invoked for that publish. -/
theorem publish_snapshot_semantics (behave : Nat → HandlerAct)
    (listeners : List Nat)
    (hok : ∀ h ∈ listeners, (behave h).throws = false) :
    (emitKafkaEvent behave listeners).1.invoked = listeners ∧
    (emitKafkaEvent behave listeners).1.raised = false ∧
    (emitKafkaEvent behave listeners).2
      = listeners ++ (emitKafkaEvent behave listeners).1.appended := by
  have h := emitRun_no_throw behave listeners hok
  exact ⟨h.1, h.2, rfl⟩

/-- Witness behaviour for C2: handler 0 registers handler 2 on the same topic
from inside its own invocation; handlers 0 and 1 are benign. -/
def c2Behave : Nat → HandlerAct :=
  fun n => if n = 0 then ⟨[2], false⟩ else ⟨[], false⟩

/-- Witness for C2: with handlers `[0, 1]` registered and handler 0
subscribing handler 2 during delivery, exactly `[0, 1]` are invoked in order
and the array afterwards is `[0, 1, 2]` — handler 2 was not invoked. -/
theorem publish_snapshot_semantics_witness :
    (∀ h ∈ [0, 1], (c2Behave h).throws = false) ∧
    ((emitKafkaEvent c2Behave [0, 1]).1.invoked = [0, 1] ∧
     (emitKafkaEvent c2Behave [0, 1]).1.raised = false ∧
     (emitKafkaEvent c2Behave [0, 1]).2
       = [0, 1] ++ (emitKafkaEvent c2Behave [0, 1]).1.appended) :=
  ⟨by decide, publish_snapshot_semantics c2Behave [0, 1] (by decide)⟩

/-- Counterexample behaviour for C4: handler 0 throws when invoked, handler 1
is benign. -/
def c4Behave : Nat → HandlerAct :=
  fun n => if n = 0 then ⟨[], true⟩ else ⟨[], false⟩

/-- Counterexample for C4: with handlers `[0, 1]` registered for the topic and
handler 0 throwing, handler 1 is NOT invoked for that event — the fault is not
isolated, the exception escapes `emitKafkaEvent` — refuting the claim at this
concrete input. -/
theorem handler_fault_not_isolated_cex :
    (c4Behave 0).throws = true ∧
    (emitKafkaEvent c4Behave [0, 1]).1.invoked = [0] ∧
    1 ∉ (emitKafkaEvent c4Behave [0, 1]).1.invoked ∧
    (emitKafkaEvent c4Behave [0, 1]).1.raised = true := by
  decide

/-- C4 (amended): if an earlier handler raises during publish, delivery stops
at that handler — the handlers invoked are exactly the non-throwing prefix
followed by the throwing handler, the exception escapes the publish, and the
handlers after it are not invoked for that event. -/
theorem handler_fault_aborts_delivery (behave : Nat → HandlerAct)
    (pre : List Nat) (h : Nat) (post : List Nat)
    (hpre : ∀ g ∈ pre, (behave g).throws = false)
    (hthrow : (behave h).throws = true) :
    (emitKafkaEvent behave (pre ++ h :: post)).1.invoked = pre ++ [h] ∧
    (emitKafkaEvent behave (pre ++ h :: post)).1.raised = true := by
  induction pre with
  | nil => simp [emitKafkaEvent, emitRun, hthrow]
  | cons g rest ih =>
      have hg : (behave g).throws = false := hpre g (List.mem_cons_self g rest)
      have hr := ih (fun x hx => hpre x (List.mem_cons_of_mem g hx))
      simp only [emitKafkaEvent] at hr ⊢
      simp [emitRun, hg, hr.1, hr.2]

/-- Witness for C4's amended statement: handlers `[1, 0, 2]` with handler 0
throwing — invoked are `[1, 0]` and the exception escapes. -/
theorem handler_fault_aborts_delivery_witness :
    (∀ g ∈ [1], (c4Behave g).throws = false) ∧ (c4Behave 0).throws = true ∧
    ((emitKafkaEvent c4Behave ([1] ++ 0 :: [2])).1.invoked = [1] ++ [0] ∧
     (emitKafkaEvent c4Behave ([1] ++ 0 :: [2])).1.raised = true) :=
  ⟨by decide, by decide,
   handler_fault_aborts_delivery c4Behave [1] 0 [2] (by decide) (by decide)⟩

/-- C5 (spec-modelled bus detach): for a handle returned by `subscribe`,
`unsubscribe` removes that registration (no remaining row carries the handle),
and a second `unsubscribe` on the same handle is a no-op — the bus state is
unchanged. The operation is a total function, so it never throws. -/
theorem unsubscribe_removes_and_idempotent (b : Bus) (topic : String)
    (handler : Nat) :
    (((b.subscribe topic handler).2.unsubscribe
        (b.subscribe topic handler).1).subs.all
      (fun s => decide (s.1 ≠ (b.subscribe topic handler).1)) = true) ∧
    ((b.subscribe topic handler).2.unsubscribe
        (b.subscribe topic handler).1).unsubscribe
        (b.subscribe topic handler).1
      = (b.subscribe topic handler).2.unsubscribe
          (b.subscribe topic handler).1 := by
  constructor
  · simp only [Bus.unsubscribe, List.all_eq_true, List.mem_filter]
    exact fun x hx => hx.2
  · simp only [Bus.unsubscribe, Bus.subscribe, List.filter_filter]
    simp [Bool.and_self]

/-- C3: the initial load is all-or-nothing — if any one of the six
concurrently issued calls rejects, `getAllDashboardData` rejects, so `loadData`
produces no snapshot: the hook's `data` is exactly what it was before (still
`null` on first load) and the session surfaces the load error
(`error` set, `isRealTimeConnected` false). -/
theorem initial_load_all_or_nothing (u : UpstreamResults) (s : HookState)
    (now : Nat)
    (hfail : u.metrics.isOk = false ∨ u.varData.isOk = false ∨
             u.sectorData.isOk = false ∨ u.alerts.isOk = false ∨
             u.portfolio.isOk = false ∨ u.health.isOk = false) :
    (getAllDashboardData u).isOk = false ∧
    (loadData s (getAllDashboardData u) now).data = s.data ∧
    (loadData s (getAllDashboardData u) now).error.isSome = true ∧
    (loadData s (getAllDashboardData u) now).isRealTimeConnected = false := by
  rcases u with ⟨m, v, sd, al, pf, hl⟩
  cases m <;> cases v <;> cases sd <;> cases al <;> cases pf <;> cases hl <;>
    simp_all [getAllDashboardData, loadData, Except.isOk, Except.toBool,
      Except.bind]

/-- Witness for C3: on first load (fresh hook state), with the time-series
query rejecting and every other call resolving, no snapshot is produced:
`data` stays `null` and the error is surfaced. -/
theorem initial_load_all_or_nothing_witness :
    ((⟨.ok mockMetrics, .error "Network error", .ok ⟨none⟩,
       .ok ⟨200, none⟩, .ok ⟨200, none⟩,
       .ok mockHealth⟩ : UpstreamResults).varData.isOk = false) ∧
    ((getAllDashboardData
        ⟨.ok mockMetrics, .error "Network error", .ok ⟨none⟩,
         .ok ⟨200, none⟩, .ok ⟨200, none⟩, .ok mockHealth⟩).isOk = false ∧
     (loadData HookState.initial
        (getAllDashboardData
          ⟨.ok mockMetrics, .error "Network error", .ok ⟨none⟩,
           .ok ⟨200, none⟩, .ok ⟨200, none⟩, .ok mockHealth⟩) 0).data = HookState.initial.data ∧
     (loadData HookState.initial
        (getAllDashboardData
          ⟨.ok mockMetrics, .error "Network error", .ok ⟨none⟩,
           .ok ⟨200, none⟩, .ok ⟨200, none⟩, .ok mockHealth⟩) 0).error.isSome = true ∧
     (loadData HookState.initial
        (getAllDashboardData
          ⟨.ok mockMetrics, .error "Network error", .ok ⟨none⟩,
           .ok ⟨200, none⟩, .ok ⟨200, none⟩, .ok mockHealth⟩) 0).isRealTimeConnected = false) :=
  ⟨rfl, initial_load_all_or_nothing
    ⟨.ok mockMetrics, .error "Network error", .ok ⟨none⟩, .ok ⟨200, none⟩,
     .ok ⟨200, none⟩, .ok mockHealth⟩ HookState.initial 0
    (Or.inr (Or.inl rfl))⟩

/-- C6: `invokeLambdaFunction` resolves with a `statusCode: 200` result
exactly when the name is one of RISK_CALCULATION, PORTFOLIO_ANALYSIS,
ALERT_PROCESSOR; any other name rejects with the unknown-function error; in
particular ALERT_PROCESSOR yields `{statusCode: 200, body: {alerts: …}}` and
NOT_A_FUNCTION rejects. -/
theorem invoke_dispatch {P : Type} (md : MarketData) (nowIso : String)
    (riskScore : Rat) (functionName : String) (payload : P) :
    ((∃ r, invokeLambdaFunction md nowIso riskScore functionName payload
        = .ok r ∧ r.statusCode = 200) ↔
      (functionName = "RISK_CALCULATION" ∨
       functionName = "PORTFOLIO_ANALYSIS" ∨
       functionName = "ALERT_PROCESSOR")) ∧
    (invokeLambdaFunction md nowIso riskScore "ALERT_PROCESSOR" payload
      = .ok ⟨200, some ⟨none, none, none, none, none,
          some (md.riskAlerts.filter (fun a => a.status == "ACTIVE")),
          some nowIso⟩⟩) ∧
    (invokeLambdaFunction md nowIso riskScore "NOT_A_FUNCTION" payload
      = .error "Unknown Lambda function: NOT_A_FUNCTION") := by
  refine ⟨⟨?_, ?_⟩, rfl, rfl⟩
  · rintro ⟨r, hr, h200⟩
    by_contra hno
    push_neg at hno
    obtain ⟨h1, h2, h3⟩ := hno
    simp [invokeLambdaFunction, h1, h2, h3] at hr
  · rintro (h | h | h) <;> rw [h] <;> exact ⟨_, rfl, rfl⟩

/-- Witness for C6 at the spec's concrete scenario inputs. -/
theorem invoke_dispatch_witness :
    ((∃ r, invokeLambdaFunction mockMarketData "2025-01-01T00:00:00.000Z"
        42 "ALERT_PROCESSOR" ()
        = .ok r ∧ r.statusCode = 200) ↔
      ("ALERT_PROCESSOR" = "RISK_CALCULATION" ∨
       "ALERT_PROCESSOR" = "PORTFOLIO_ANALYSIS" ∨
       "ALERT_PROCESSOR" = "ALERT_PROCESSOR")) ∧
    (invokeLambdaFunction mockMarketData "2025-01-01T00:00:00.000Z"
        42 "ALERT_PROCESSOR" ()
      = .ok ⟨200, some ⟨none, none, none, none, none,
          some (mockMarketData.riskAlerts.filter
            (fun a => a.status == "ACTIVE")),
          some "2025-01-01T00:00:00.000Z"⟩⟩) ∧
    (invokeLambdaFunction mockMarketData "2025-01-01T00:00:00.000Z"
        42 "NOT_A_FUNCTION" ()
      = .error "Unknown Lambda function: NOT_A_FUNCTION") :=
  invoke_dispatch mockMarketData "2025-01-01T00:00:00.000Z" 42
    "ALERT_PROCESSOR" ()

/-- C8: if the fast-loop metrics refresh rejects, that iteration leaves the
state exactly as it was — `metrics` is neither cleared nor partially
overwritten, every other snapshot field is untouched, and `lastUpdated` is not
stamped. -/
theorem fast_loop_failure_frame (data : Option DashboardData)
    (lastUpdated : Option Nat) (e : String) (now : Nat) :
    metricsTick data lastUpdated (.error e) now = (data, lastUpdated) := rfl

/-- C9: the ALERT_PROCESSOR branch returns in `body.alerts` exactly the
underlying alerts whose `status` is ACTIVE; every alert in the returned list
has status ACTIVE, so RESOLVED / MONITORING alerts are filtered out of every
result. -/
theorem alert_processor_filters_active {P : Type} (md : MarketData)
    (nowIso : String) (riskScore : Rat) (payload : P) :
    ((invokeLambdaFunction md nowIso riskScore "ALERT_PROCESSOR"
        payload).toOption.bind (fun r => r.body.bind (fun b => b.alerts))
      = some (md.riskAlerts.filter (fun a => a.status == "ACTIVE"))) ∧
    ∀ a ∈ md.riskAlerts.filter (fun a => a.status == "ACTIVE"),
      a.status = "ACTIVE" := by
  refine ⟨rfl, ?_⟩
  intro a ha
  have h := (List.mem_filter.mp ha).2
  simpa using h

/-- Witness for C9: on the repository's mock alerts (one RESOLVED, one
MONITORING among them), the returned list is exactly the two ACTIVE alerts,
and the TSLA alert in it has status ACTIVE. -/
theorem alert_processor_filters_active_witness :
    ((invokeLambdaFunction mockMarketData "T" 42 "ALERT_PROCESSOR"
        ()).toOption.bind (fun r => r.body.bind (fun b => b.alerts))
      = some (mockMarketData.riskAlerts.filter
          (fun a => a.status == "ACTIVE"))) ∧
    tslaAlert.status = "ACTIVE" :=
  ⟨(alert_processor_filters_active mockMarketData "T" 42 ()).1,
   (alert_processor_filters_active mockMarketData "T" 42 ()).2 tslaAlert
     (by decide)⟩

/-- C10: when all six upstream calls resolve, `getAllDashboardData` resolves
with a snapshot whose four list fields are the defensively defaulted
`x.data?.field || []` / `x.body?.field || []` values — list-typed always — and
in particular an upstream result that resolved without the expected field
(`data` / `body` null) yields the empty array, never a missing value. -/
theorem dashboard_defaults_to_empty_arrays (m : RiskMetrics)
    (vd sd : GraphQLResult) (al pf : LambdaResult) (hl : SystemHealth) :
    (getAllDashboardData ⟨.ok m, .ok vd, .ok sd, .ok al, .ok pf, .ok hl⟩
      = .ok ⟨m, (vd.data.bind (fun d => d.varHistory)).getD [],
             (sd.data.bind (fun d => d.sectorExposure)).getD [],
             (al.body.bind (fun b => b.alerts)).getD [],
             (pf.body.bind (fun b => b.analysis)).getD [], hl⟩) ∧
    (vd.data = none → sd.data = none → al.body = none → pf.body = none →
      getAllDashboardData ⟨.ok m, .ok vd, .ok sd, .ok al, .ok pf, .ok hl⟩
        = .ok ⟨m, [], [], [], [], hl⟩) := by
  refine ⟨rfl, ?_⟩
  intro h1 h2 h3 h4
  simp [getAllDashboardData, h1, h2, h3, h4, Except.bind]

/-- Witness for C10: concrete upstream results with `data: null` /
`body: null` assemble to a snapshot whose four list fields are `[]`. -/
theorem dashboard_defaults_to_empty_arrays_witness :
    getAllDashboardData
      ⟨.ok mockMetrics, .ok ⟨none⟩, .ok ⟨none⟩, .ok ⟨200, none⟩,
       .ok ⟨200, none⟩, .ok mockHealth⟩
      = .ok ⟨mockMetrics, [], [], [], [], mockHealth⟩ :=
  (dashboard_defaults_to_empty_arrays mockMetrics ⟨none⟩ ⟨none⟩ ⟨200, none⟩
    ⟨200, none⟩ mockHealth).2 rfl rfl rfl rfl

/-- Witness for C1, the spec's concrete scenario: store `("m", 1, 5)` at time 0
in the empty cache; fetch at time 0 returns the value; fetch 6 simulated
seconds later returns absent and purges the entry. -/
theorem cache_store_fetch_ttl_witness :
    0 < 5 ∧ 0 + 5 * 1000 ≤ 6000 ∧
    ((getCache (setCache (Cache.empty Nat) 0 "m" 1 5) 0 "m").1 = some 1 ∧
     (getCache (setCache (Cache.empty Nat) 0 "m" 1 5) 6000 "m").1 = none ∧
     (getCache (setCache (Cache.empty Nat) 0 "m" 1 5) 6000 "m").2 "m" = none) :=
  ⟨by decide, by decide,
   cache_store_fetch_ttl (Cache.empty Nat) 0 6000 "m" 1 5 (by decide) (by decide)⟩

end RiskDashboard
